import Mathlib

/-!
Shallow embedding of the voice session lifecycle and audio delivery pipeline
of the `AudioPlayer` class (stoatbot.js, `src/voice/player.ts`).

Machine integers (16-bit PCM samples) are modelled as `Int` with explicit
clamping; JavaScript numbers used for the volume level are modelled as `Rat`;
JavaScript `Math.round` is modelled as `fun x => Rat.floor (x + 1/2)`, which
agrees with JS round-half-up semantics.  External collaborators (the signaling
endpoint, the LiveKit room transport, the filesystem, URL parsing, FFmpeg) are
modelled as explicit oracle/environment records so that the player's own
control flow — the part the source file implements — is embedded faithfully.
-/

namespace StoatVoice

/-- One outbound track publication, keyed by its transport-assigned sid
(`LocalTrackPublication` in the source). -/
structure Publication where
  sid : String
deriving DecidableEq, Repr

/-- An audio source handle recorded in the `audioSources` map. -/
structure AudioSourceHandle where
  id : String
deriving DecidableEq, Repr

/-- The transport room handle (`Room` from the relay transport), created from
the negotiated `{token, url}` grant. -/
structure Room where
  url : String
  token : String
deriving DecidableEq, Repr

/-- Notifications emitted on the player's event surface.  Payload strings that
are dynamically formatted in the source (debug messages) are abbreviated to a
stable label; the event kind and identifying payloads are kept. -/
inductive Event where
  | volumeChanged (oldVolume newVolume : Rat)
  | muted (previousVolume : Rat)
  | unmuted (newVolume : Rat)
  | connectedEvt (channelId serverId : String)
  | disconnectedEvt (channelId serverId reason : String)
  | audioStart (source kind : String)
  | audioEnd (source kind : String)
  | audioError (source kind : String)
  | trackPublished (sid : String)
  | trackStopped (sid : String)
  | conversionStart (source : String)
  | conversionEnd (source : String) (samples : Nat)
  | conversionError (source : String)
  | errorEvent (context : String)
  | debug (message : String)
  | logUnpublishFailure (sid : String)
deriving DecidableEq, Repr

/-- The `AudioPlayer` instance state: its private fields from the source. -/
structure Player where
  channelId : String
  serverId : String
  volume : Rat
  room : Option Room
  publications : List Publication
  audioSources : List AudioSourceHandle
  isConnected : Bool
  shouldStop : Bool
  isStreaming : Bool
deriving DecidableEq, Repr

/-- A freshly constructed `AudioPlayer` (constructor defaults: volume 1.0, no
room, empty maps, all flags false). -/
def freshPlayer (channelId serverId : String) : Player :=
  { channelId := channelId
    serverId := serverId
    volume := 1
    room := none
    publications := []
    audioSources := []
    isConnected := false
    shouldStop := false
    isStreaming := false }

/-- The `connected` getter: `this.isConnected && !!this.room`. -/
def connectedGetter (p : Player) : Bool :=
  p.isConnected && p.room.isSome

/-! ## Volume processing (setVolume / mute / unmute / applyVolume) -/

/-- Volume clamping in `setVolume`: `Math.max(0.0, Math.min(2.0, level))`. -/
def clampVolume (level : Rat) : Rat :=
  max 0 (min 2 level)

/-- Method `setVolume(level)`: clamps the level into [0, 2], stores it and emits a
debug event plus `volumeChanged(oldVolume, newVolume)`. -/
def setVolume (p : Player) (level : Rat) : Player × List Event :=
  let newVolume := clampVolume level
  ({ p with volume := newVolume },
    [Event.debug "Volume set", Event.volumeChanged p.volume newVolume])

/-- Method `mute()`: `setVolume(0)` then emit `muted(oldVolume)`. -/
def mute (p : Player) : Player × List Event :=
  let r := setVolume p 0
  (r.1, r.2 ++ [Event.muted p.volume])

/-- Method `unmute()`: only when the current volume is exactly 0, `setVolume(1.0)`
and emit `unmuted(1.0)`; otherwise nothing happens. -/
def unmute (p : Player) : Player × List Event :=
  if p.volume = 0 then
    let r := setVolume p 1
    (r.1, r.2 ++ [Event.unmuted 1])
  else (p, [])

/-- JavaScript `Math.round`: round half toward positive infinity. -/
def jsRound (x : Rat) : Int :=
  Rat.floor (x + 1 / 2)

/-- Clamp an integer into the signed 16-bit range, as
`Math.max(-32768, Math.min(32767, n))`. -/
def clamp16 (n : Int) : Int :=
  max (-32768) (min 32767 n)

/-- Method `applyVolume(pcmData)` with the player's volume passed explicitly: the
identity fast path at volume 1.0, otherwise per-sample gain with rounding and
16-bit clamping.  Pure: a new output array is produced, the input list is not
modified. -/
def applyVolume (volume : Rat) (pcmData : List Int) : List Int :=
  if volume = 1 then pcmData
  else pcmData.map fun s : Int => clamp16 (jsRound ((s : Rat) * volume))

theorem clamp16_lower (n : Int) : -32768 ≤ clamp16 n :=
  le_max_left _ _

theorem clamp16_upper (n : Int) : clamp16 n ≤ 32767 :=
  max_le (by norm_num) (min_le_left _ _)

theorem getD_map_of_lt (f : Int → Int) :
    ∀ (l : List Int) (i : Nat), i < l.length →
      (l.map f).getD i 0 = f (l.getD i 0) := by
  intro l
  induction l with
  | nil => intro i h; simp at h
  | cons a t ih =>
    intro i h
    cases i with
    | zero => simp [List.getD]
    | succ j =>
      simp only [List.map_cons, List.getD_cons_succ]
      exact ih j (by simpa using h)

/-- C5: `applyVolume` matches its reference definition.  For every volume
level v in [0, 2] and every 16-bit input sample list: at v = 1 the input is
returned unchanged; the output always has the input's length; for v different
from 1 the i-th output sample equals clamp(round(input[i] * v), -32768,
32767); and every output sample lies in [-32768, 32767].  Purity holds by
construction (the function depends only on its arguments). -/
theorem applyVolume_spec (v : Rat) (pcm : List Int)
    (hv0 : 0 ≤ v) (hv2 : v ≤ 2)
    (hin : ∀ s ∈ pcm, -32768 ≤ s ∧ s ≤ 32767) :
    (v = 1 → applyVolume v pcm = pcm) ∧
    (applyVolume v pcm).length = pcm.length ∧
    (v ≠ 1 → ∀ i, i < pcm.length →
      (applyVolume v pcm).getD i 0 =
        clamp16 (jsRound ((pcm.getD i 0 : Rat) * v))) ∧
    (∀ s ∈ applyVolume v pcm, -32768 ≤ s ∧ s ≤ 32767) := by
  refine ⟨?_, ?_, ?_, ?_⟩
  · intro h1
    simp [applyVolume, h1]
  · by_cases h1 : v = 1
    · simp [applyVolume, h1]
    · simp [applyVolume, h1]
  · intro h1 i hi
    simp only [applyVolume, if_neg h1]
    exact getD_map_of_lt _ pcm i hi
  · intro s hs
    by_cases h1 : v = 1
    · rw [applyVolume, if_pos h1] at hs
      exact hin s hs
    · rw [applyVolume, if_neg h1] at hs
      obtain ⟨a, _, rfl⟩ := List.mem_map.mp hs
      exact ⟨clamp16_lower _, clamp16_upper _⟩

/-- Witness for C5 at volume 1/2 on a concrete 16-bit sample list. -/
theorem applyVolume_spec_witness :
    0 ≤ (1 / 2 : Rat) ∧ (1 / 2 : Rat) ≤ 2 ∧
      (applyVolume (1 / 2) ([1000, -32768, 32767] : List Int)).length = 3 :=
  ⟨by norm_num, by norm_num,
    (applyVolume_spec (1 / 2) [1000, -32768, 32767] (by norm_num) (by norm_num)
      (by decide)).2.1⟩

/-- C10: `unmute()` restores the volume to 1.0 only when the current volume
is exactly 0; at any nonzero volume it changes nothing and emits no event;
and after `mute()` followed by `unmute()` the volume is 1.0 (the pre-mute
level is never restored). -/
theorem unmute_spec (p : Player) :
    (p.volume ≠ 0 → unmute p = (p, [])) ∧
    (p.volume = 0 → (unmute p).1.volume = 1) ∧
    (unmute (mute p).1).1.volume = 1 := by
  refine ⟨?_, ?_, ?_⟩
  · intro h
    simp [unmute, h]
  · intro h
    simp [unmute, h, setVolume, clampVolume]
  · simp [mute, unmute, setVolume, clampVolume]

/-- Witness for C10: a player at volume 1/2 (nonzero, different from 1) is
untouched by `unmute`, and `mute` then `unmute` lands at 1, not 1/2. -/
theorem unmute_spec_witness :
    unmute { freshPlayer "c" "s" with volume := 1 / 2 } =
        ({ freshPlayer "c" "s" with volume := 1 / 2 }, []) ∧
      (unmute (mute { freshPlayer "c" "s" with volume := 1 / 2 }).1).1.volume = 1 :=
  ⟨(unmute_spec { freshPlayer "c" "s" with volume := 1 / 2 }).1 (by norm_num [freshPlayer]),
    (unmute_spec { freshPlayer "c" "s" with volume := 1 / 2 }).2.2⟩

/-! ## Track/resource cleanup (stop / disconnect) -/

/-- Outcomes of the transport operations that `stop`/`disconnect` await:
whether each `localParticipant.unpublishTrack(sid)` call succeeds, and whether
`room.disconnect()` succeeds. -/
structure DisconnectEnv where
  unpublishOk : String → Bool
  roomDisconnectOk : Bool

/-- The per-track loop of `stop()` with no track name: one `unpublishTrack`
attempt per publication, emitting `trackStopped(sid)` on success and logging
the failure (modelled as a log event) on error, always continuing. -/
def stopAllEvents (unpublishOk : String → Bool) (pubs : List Publication) :
    List Event :=
  pubs.map fun pub =>
    if unpublishOk pub.sid then Event.trackStopped pub.sid
    else Event.logUnpublishFailure pub.sid

/-- Method `stop()` with no track argument: sets the cooperative stop flags, returns
early if there is no room, otherwise unpublishes every tracked publication
(tolerating individual failures) and clears the publication map. -/
def stop (p : Player) (env : DisconnectEnv) : Player × List Event :=
  let p1 := { p with shouldStop := true, isStreaming := false }
  match p1.room with
  | none => (p1, [])
  | some _ =>
    ({ p1 with publications := [] }, stopAllEvents env.unpublishOk p1.publications)

/-- Result of `disconnect()`: the final player state, the emitted events, and
whether the call re-threw the transport error. -/
structure DisconnectResult where
  player : Player
  events : List Event
  threw : Bool
deriving DecidableEq, Repr

/-- Method `disconnect()`: no-op without a room; otherwise `stop()` (clearing the
publication map), clear the audio-source map, then `room.disconnect()`.  On
success the connection flag, publication map and room handle are reset and a
manual `disconnected` event is emitted; if `room.disconnect()` throws, the
catch block still resets all of them before re-throwing. -/
def disconnect (p : Player) (env : DisconnectEnv) : DisconnectResult :=
  match p.room with
  | none => ⟨p, [], false⟩
  | some _ =>
    let r := stop p env
    let p2 := { r.1 with audioSources := [] }
    if env.roomDisconnectOk then
      ⟨{ p2 with isConnected := false, publications := [], room := none },
        r.2 ++ [Event.disconnectedEvt p.channelId p.serverId "manual",
          Event.debug "Disconnected manually"],
        false⟩
    else
      ⟨{ p2 with
          isConnected := false
          publications := []
          audioSources := []
          room := none },
        r.2, true⟩

/-- C3: after `disconnect()` completes — and also when it re-throws a
transport error — the publication map and the audio-source map are empty and
the room handle is released, for every combination of per-track unpublish
outcomes; each successful unpublish emits `trackStopped` and each failing one
is logged while cleanup continues. -/
theorem disconnect_cleanup (p : Player) (env : DisconnectEnv)
    (hroom : p.room.isSome = true) :
    (disconnect p env).player.publications = [] ∧
    (disconnect p env).player.audioSources = [] ∧
    (disconnect p env).player.room = none ∧
    (∀ pub ∈ p.publications, env.unpublishOk pub.sid = true →
      Event.trackStopped pub.sid ∈ (disconnect p env).events) ∧
    (∀ pub ∈ p.publications, env.unpublishOk pub.sid = false →
      Event.logUnpublishFailure pub.sid ∈ (disconnect p env).events) := by
  obtain ⟨r, hr⟩ := Option.isSome_iff_exists.mp hroom
  by_cases hd : env.roomDisconnectOk = true
  all_goals refine ⟨?_, ?_, ?_, ?_, ?_⟩
  · simp [disconnect, stop, hr, hd]
  · simp [disconnect, stop, hr, hd]
  · simp [disconnect, stop, hr, hd]
  · intro pub hmem hok
    simp [disconnect, stop, stopAllEvents, hr, hd]
    exact ⟨pub, hmem, by simp [hok]⟩
  · intro pub hmem hok
    simp [disconnect, stop, stopAllEvents, hr, hd]
    exact ⟨pub, hmem, by simp [hok]⟩
  · simp [disconnect, stop, hr, hd]
  · simp [disconnect, stop, hr, hd]
  · simp [disconnect, stop, hr, hd]
  · intro pub hmem hok
    simp [disconnect, stop, stopAllEvents, hr, hd]
    exact ⟨pub, hmem, by simp [hok]⟩
  · intro pub hmem hok
    simp [disconnect, stop, stopAllEvents, hr, hd]
    exact ⟨pub, hmem, by simp [hok]⟩

/-- Witness for C3: a connected player with two tracks, one failing and one
succeeding unpublish, and a throwing `room.disconnect()`; both tracks are
removed from internal tracking and the room handle is released. -/
theorem disconnect_cleanup_witness :
    (disconnect
        { freshPlayer "c" "s" with
            room := some ⟨"u", "t"⟩
            isConnected := true
            publications := [⟨"a"⟩, ⟨"b"⟩]
            audioSources := [⟨"src1"⟩] }
        { unpublishOk := fun sid => sid = "b", roomDisconnectOk := false }).player.publications = [] ∧
    (disconnect
        { freshPlayer "c" "s" with
            room := some ⟨"u", "t"⟩
            isConnected := true
            publications := [⟨"a"⟩, ⟨"b"⟩]
            audioSources := [⟨"src1"⟩] }
        { unpublishOk := fun sid => sid = "b", roomDisconnectOk := false }).player.audioSources = [] ∧
    (disconnect
        { freshPlayer "c" "s" with
            room := some ⟨"u", "t"⟩
            isConnected := true
            publications := [⟨"a"⟩, ⟨"b"⟩]
            audioSources := [⟨"src1"⟩] }
        { unpublishOk := fun sid => sid = "b", roomDisconnectOk := false }).player.room = none := by
  have h := disconnect_cleanup
    { freshPlayer "c" "s" with
        room := some ⟨"u", "t"⟩
        isConnected := true
        publications := [⟨"a"⟩, ⟨"b"⟩]
        audioSources := [⟨"src1"⟩] }
    { unpublishOk := fun sid => sid = "b", roomDisconnectOk := false }
    (by rfl)
  exact ⟨h.1, h.2.1, h.2.2.1⟩

/-! ## Connection negotiation and the connect lifecycle -/

/-- Result of one `POST /channels/{ch}/join_call` request as observed by the
player: a `{token, url}` grant, the `AlreadyConnected` conflict, or any other
error (re-thrown unchanged). -/
inductive JoinResult where
  | granted (token url : String)
  | alreadyConnected
  | failed
deriving DecidableEq, Repr

/-- Requests issued to the signaling endpoint during negotiation. -/
inductive ApiCall where
  | postJoin (channel : String) (force : Bool)
  | deleteJoin (channel : String)
deriving DecidableEq, Repr

/-- Environment for one `connect()` run: the outcomes the signaling endpoint
and the transport return for each request the code can issue — the first
join, the conflict-clearing DELETE, the post-DELETE retry join, the
force-flag join, and the `room.connect` handshake. -/
structure ConnectEnv where
  firstJoin : JoinResult
  deleteOk : Bool
  retryJoin : JoinResult
  forceJoin : JoinResult
  handshakeOk : Bool

def isGrantedJoin : JoinResult → Bool
  | JoinResult.granted _ _ => true
  | _ => false

/-- Outcome of the negotiation block of `connect()`. -/
inductive NegotiationOutcome where
  | granted (token url : String)
  | fatalConflict
  | failed
deriving DecidableEq, Repr

def isGrantedNeg : NegotiationOutcome → Bool
  | NegotiationOutcome.granted _ _ => true
  | _ => false

/-- The negotiation try/catch pyramid of `connect()`: a first `join_call`; on
`AlreadyConnected`, strategy 1 is DELETE on the same channel plus a retried
join (one try block — failure of either falls through), strategy 2 is a
join with `force: true`; when both strategies fail the fatal conflict error
with guidance is thrown.  Any non-conflict first error is re-thrown.  The
returned list is every request issued, in order. -/
def negotiate (env : ConnectEnv) (ch : String) : List ApiCall × NegotiationOutcome :=
  match env.firstJoin with
  | JoinResult.granted t u => ([ApiCall.postJoin ch false], NegotiationOutcome.granted t u)
  | JoinResult.failed => ([ApiCall.postJoin ch false], NegotiationOutcome.failed)
  | JoinResult.alreadyConnected =>
    if env.deleteOk then
      match env.retryJoin with
      | JoinResult.granted t u =>
          ([ApiCall.postJoin ch false, ApiCall.deleteJoin ch, ApiCall.postJoin ch false],
            NegotiationOutcome.granted t u)
      | _ =>
        match env.forceJoin with
        | JoinResult.granted t u =>
            ([ApiCall.postJoin ch false, ApiCall.deleteJoin ch, ApiCall.postJoin ch false,
                ApiCall.postJoin ch true],
              NegotiationOutcome.granted t u)
        | _ =>
            ([ApiCall.postJoin ch false, ApiCall.deleteJoin ch, ApiCall.postJoin ch false,
                ApiCall.postJoin ch true],
              NegotiationOutcome.fatalConflict)
    else
      match env.forceJoin with
      | JoinResult.granted t u =>
          ([ApiCall.postJoin ch false, ApiCall.deleteJoin ch, ApiCall.postJoin ch true],
            NegotiationOutcome.granted t u)
      | _ =>
          ([ApiCall.postJoin ch false, ApiCall.deleteJoin ch, ApiCall.postJoin ch true],
            NegotiationOutcome.fatalConflict)

/-- How one `connect()` call settled. -/
inductive ConnectOutcome where
  | noop
  | success
  | fatalConflict
  | failed
  | disconnectFailed
deriving DecidableEq, Repr

structure ConnectResult where
  player : Player
  calls : List ApiCall
  events : List Event
  outcome : ConnectOutcome
deriving DecidableEq, Repr

/-- The body of `connect()`'s try block after the early-return checks: run
negotiation; on a grant, create the `Room` and store it in `this.room`
*before* the transport handshake; on a successful handshake set the connected
flag and emit `connected`; every thrown error is caught once, an `error`
notification with context "connection" is emitted, and the error re-thrown. -/
def connectNegotiation (p : Player) (env : ConnectEnv) (ch : String)
    (es0 : List Event) : ConnectResult :=
  let es1 := es0 ++ [Event.debug "Starting connection"]
  match negotiate env ch with
  | (calls, NegotiationOutcome.granted t u) =>
    let p1 := { p with room := some { url := u, token := t } }
    if env.handshakeOk then
      ⟨{ p1 with isConnected := true }, calls,
        es1 ++ [Event.connectedEvt ch p.serverId, Event.debug "Connection established"],
        ConnectOutcome.success⟩
    else
      ⟨p1, calls, es1 ++ [Event.errorEvent "connection"], ConnectOutcome.failed⟩
  | (calls, NegotiationOutcome.fatalConflict) =>
      ⟨p, calls, es1 ++ [Event.errorEvent "connection"], ConnectOutcome.fatalConflict⟩
  | (calls, NegotiationOutcome.failed) =>
      ⟨p, calls, es1 ++ [Event.errorEvent "connection"], ConnectOutcome.failed⟩

/-- Method `connect(targetChannelId?)`: an early no-op return when already connected
to the requested channel; an implicit disconnect (outside the try block, so a
disconnect error propagates) followed by a channel switch when connected to a
different channel; otherwise the negotiation body. -/
def connect (p : Player) (cenv : ConnectEnv) (denv : DisconnectEnv)
    (target : Option String) : ConnectResult :=
  let ch := target.getD p.channelId
  if p.isConnected then
    if ch = p.channelId then ⟨p, [], [], ConnectOutcome.noop⟩
    else
      let d := disconnect p denv
      if d.threw then ⟨d.player, [], d.events, ConnectOutcome.disconnectFailed⟩
      else connectNegotiation { d.player with channelId := ch } cenv ch d.events
  else connectNegotiation p cenv ch []

/-- C8: calling `connect` again with the same channel while already connected
returns as a no-op: no request reaches the signaling endpoint, no event is
emitted, and the whole player state (connection flag, room handle, tracks,
volume) is unchanged. -/
theorem connect_same_channel_noop (p : Player) (cenv : ConnectEnv)
    (denv : DisconnectEnv) (hc : p.isConnected = true) :
    connect p cenv denv (some p.channelId) =
      ⟨p, [], [], ConnectOutcome.noop⟩ := by
  simp [connect, hc]

/-- Witness for C8 on a concrete connected player. -/
theorem connect_same_channel_noop_witness :
    connect
        { freshPlayer "c" "s" with isConnected := true, room := some ⟨"u", "t"⟩ }
        { firstJoin := JoinResult.granted "t2" "u2", deleteOk := true,
          retryJoin := JoinResult.granted "t2" "u2",
          forceJoin := JoinResult.granted "t2" "u2", handshakeOk := true }
        { unpublishOk := fun _ => true, roomDisconnectOk := true }
        (some "c") =
      ⟨{ freshPlayer "c" "s" with isConnected := true, room := some ⟨"u", "t"⟩ },
        [], [], ConnectOutcome.noop⟩ :=
  connect_same_channel_noop
    { freshPlayer "c" "s" with isConnected := true, room := some ⟨"u", "t"⟩ }
    { firstJoin := JoinResult.granted "t2" "u2", deleteOk := true,
      retryJoin := JoinResult.granted "t2" "u2",
      forceJoin := JoinResult.granted "t2" "u2", handshakeOk := true }
    { unpublishOk := fun _ => true, roomDisconnectOk := true }
    (by rfl)

/-- C2: when the first join reports `AlreadyConnected`, the recovery
strategies run in order and stop at the first success.  If the DELETE and the
retried join succeed, the request list is exactly first-join, DELETE, retry —
the force-flag request is never issued — and with a successful handshake the
session reaches the connected state; if both strategies fail, `connect`
settles with the fatal conflict outcome and issues no request beyond the
force attempt. -/
theorem connect_conflict_recovery (p : Player) (cenv : ConnectEnv)
    (denv : DisconnectEnv) (t u : String)
    (hnc : p.isConnected = false)
    (hfirst : cenv.firstJoin = JoinResult.alreadyConnected) :
    (cenv.deleteOk = true → cenv.retryJoin = JoinResult.granted t u →
      (connect p cenv denv none).calls =
        [ApiCall.postJoin p.channelId false, ApiCall.deleteJoin p.channelId,
          ApiCall.postJoin p.channelId false] ∧
      ApiCall.postJoin p.channelId true ∉ (connect p cenv denv none).calls ∧
      (cenv.handshakeOk = true →
        (connect p cenv denv none).outcome = ConnectOutcome.success ∧
        (connect p cenv denv none).player.isConnected = true)) ∧
    ((cenv.deleteOk = false ∨ isGrantedJoin cenv.retryJoin = false) →
      isGrantedJoin cenv.forceJoin = false →
      (connect p cenv denv none).outcome = ConnectOutcome.fatalConflict ∧
      (connect p cenv denv none).calls =
        if cenv.deleteOk then
          [ApiCall.postJoin p.channelId false, ApiCall.deleteJoin p.channelId,
            ApiCall.postJoin p.channelId false, ApiCall.postJoin p.channelId true]
        else
          [ApiCall.postJoin p.channelId false, ApiCall.deleteJoin p.channelId,
            ApiCall.postJoin p.channelId true]) := by
  constructor
  · intro hdel hretry
    refine ⟨?_, ?_, ?_⟩
    · by_cases hh : cenv.handshakeOk = true <;>
        simp [connect, hnc, connectNegotiation, negotiate, hfirst, hdel, hretry, hh]
    · by_cases hh : cenv.handshakeOk = true <;>
        simp [connect, hnc, connectNegotiation, negotiate, hfirst, hdel, hretry, hh]
    · intro hh
      constructor <;>
        simp [connect, hnc, connectNegotiation, negotiate, hfirst, hdel, hretry, hh]
  · intro hfail hforce
    cases hfail with
    | inl hdel =>
      cases hfj : cenv.forceJoin with
      | granted a b => rw [hfj] at hforce; simp [isGrantedJoin] at hforce
      | alreadyConnected =>
        constructor <;>
          simp [connect, hnc, connectNegotiation, negotiate, hfirst, hdel, hfj]
      | failed =>
        constructor <;>
          simp [connect, hnc, connectNegotiation, negotiate, hfirst, hdel, hfj]
    | inr hretry =>
      cases hrj : cenv.retryJoin with
      | granted a b => rw [hrj] at hretry; simp [isGrantedJoin] at hretry
      | alreadyConnected =>
        cases hfj : cenv.forceJoin with
        | granted a b => rw [hfj] at hforce; simp [isGrantedJoin] at hforce
        | alreadyConnected =>
          by_cases hdel : cenv.deleteOk = true <;>
            constructor <;>
            simp [connect, hnc, connectNegotiation, negotiate, hfirst, hdel, hrj, hfj]
        | failed =>
          by_cases hdel : cenv.deleteOk = true <;>
            constructor <;>
            simp [connect, hnc, connectNegotiation, negotiate, hfirst, hdel, hrj, hfj]
      | failed =>
        cases hfj : cenv.forceJoin with
        | granted a b => rw [hfj] at hforce; simp [isGrantedJoin] at hforce
        | alreadyConnected =>
          by_cases hdel : cenv.deleteOk = true <;>
            constructor <;>
            simp [connect, hnc, connectNegotiation, negotiate, hfirst, hdel, hrj, hfj]
        | failed =>
          by_cases hdel : cenv.deleteOk = true <;>
            constructor <;>
            simp [connect, hnc, connectNegotiation, negotiate, hfirst, hdel, hrj, hfj]

/-- Witness for C2: concrete conflict scenario where release-then-retry
succeeds — the session connects without any force-flag request. -/
theorem connect_conflict_recovery_witness :
    (connect (freshPlayer "c" "s")
        { firstJoin := JoinResult.alreadyConnected, deleteOk := true,
          retryJoin := JoinResult.granted "tok" "url",
          forceJoin := JoinResult.failed, handshakeOk := true }
        { unpublishOk := fun _ => true, roomDisconnectOk := true }
        none).calls =
      [ApiCall.postJoin "c" false, ApiCall.deleteJoin "c", ApiCall.postJoin "c" false] ∧
    (connect (freshPlayer "c" "s")
        { firstJoin := JoinResult.alreadyConnected, deleteOk := true,
          retryJoin := JoinResult.granted "tok" "url",
          forceJoin := JoinResult.failed, handshakeOk := true }
        { unpublishOk := fun _ => true, roomDisconnectOk := true }
        none).outcome = ConnectOutcome.success := by
  have h := connect_conflict_recovery (freshPlayer "c" "s")
    { firstJoin := JoinResult.alreadyConnected, deleteOk := true,
      retryJoin := JoinResult.granted "tok" "url",
      forceJoin := JoinResult.failed, handshakeOk := true }
    { unpublishOk := fun _ => true, roomDisconnectOk := true }
    "tok" "url" (by rfl) (by rfl)
  exact ⟨(h.1 (by rfl) (by rfl)).1, ((h.1 (by rfl) (by rfl)).2.2 (by rfl)).1⟩

/-- C6 counterexample: on a freshly created player, negotiation succeeds but
the transport handshake fails; `connect` rejects, yet the player still holds
the room handle created for the attempt (`this.room` is never cleared in the
catch block), so its state is not that of a freshly created player. -/
theorem connect_handshake_failure_keeps_room :
    (connect (freshPlayer "c" "s")
        { firstJoin := JoinResult.granted "tok" "url", deleteOk := true,
          retryJoin := JoinResult.failed, forceJoin := JoinResult.failed,
          handshakeOk := false }
        { unpublishOk := fun _ => true, roomDisconnectOk := true }
        none).player.room = some { url := "url", token := "tok" } ∧
    (connect (freshPlayer "c" "s")
        { firstJoin := JoinResult.granted "tok" "url", deleteOk := true,
          retryJoin := JoinResult.failed, forceJoin := JoinResult.failed,
          handshakeOk := false }
        { unpublishOk := fun _ => true, roomDisconnectOk := true }
        none).player ≠ freshPlayer "c" "s" ∧
    (connect (freshPlayer "c" "s")
        { firstJoin := JoinResult.granted "tok" "url", deleteOk := true,
          retryJoin := JoinResult.failed, forceJoin := JoinResult.failed,
          handshakeOk := false }
        { unpublishOk := fun _ => true, roomDisconnectOk := true }
        none).outcome = ConnectOutcome.failed := by
  refine ⟨?_, ?_, ?_⟩ <;> decide

/-- C6 (amended): on a not-connected player with no room handle, an
unrecoverable negotiation failure makes `connect` reject with an error
notification and leaves the player exactly as it was — not connected, no
transport handle, i.e. fresh-equivalent.  When negotiation succeeds but the
transport handshake fails, `connect` rejects with an error notification and
the player is not connected (`connected` reads false), but the room handle
created for the attempt is retained instead of being cleared. -/
theorem connect_failure_state (p : Player) (cenv : ConnectEnv)
    (denv : DisconnectEnv)
    (hnc : p.isConnected = false) (hnr : p.room = none) :
    (isGrantedNeg (negotiate cenv p.channelId).2 = false →
      (connect p cenv denv none).player = p ∧
      ((connect p cenv denv none).outcome = ConnectOutcome.failed ∨
        (connect p cenv denv none).outcome = ConnectOutcome.fatalConflict) ∧
      Event.errorEvent "connection" ∈ (connect p cenv denv none).events) ∧
    (isGrantedNeg (negotiate cenv p.channelId).2 = true →
      cenv.handshakeOk = false →
      (connect p cenv denv none).outcome = ConnectOutcome.failed ∧
      (connect p cenv denv none).player.isConnected = false ∧
      connectedGetter (connect p cenv denv none).player = false ∧
      (connect p cenv denv none).player.room ≠ none ∧
      Event.errorEvent "connection" ∈ (connect p cenv denv none).events) := by
  constructor
  · intro hng
    rcases hneg : negotiate cenv p.channelId with ⟨calls, out⟩
    rw [hneg] at hng
    cases out with
    | granted a b => simp [isGrantedNeg] at hng
    | fatalConflict =>
      refine ⟨?_, ?_, ?_⟩ <;> simp [connect, hnc, connectNegotiation, hneg]
    | failed =>
      refine ⟨?_, ?_, ?_⟩ <;> simp [connect, hnc, connectNegotiation, hneg]
  · intro hng hh
    rcases hneg : negotiate cenv p.channelId with ⟨calls, out⟩
    rw [hneg] at hng
    cases out with
    | granted a b =>
      refine ⟨?_, ?_, ?_, ?_, ?_⟩ <;>
        simp [connect, hnc, connectNegotiation, connectedGetter, hneg, hh]
    | fatalConflict => simp [isGrantedNeg] at hng
    | failed => simp [isGrantedNeg] at hng

/-- Witness for the amended C6: negotiation fails outright on a fresh player
— the player is returned untouched; and the handshake-failure branch at a
concrete grant keeps the room handle. -/
theorem connect_failure_state_witness :
    (connect (freshPlayer "c" "s")
        { firstJoin := JoinResult.failed, deleteOk := false,
          retryJoin := JoinResult.failed, forceJoin := JoinResult.failed,
          handshakeOk := true }
        { unpublishOk := fun _ => true, roomDisconnectOk := true }
        none).player = freshPlayer "c" "s" := by
  have h := connect_failure_state (freshPlayer "c" "s")
    { firstJoin := JoinResult.failed, deleteOk := false,
      retryJoin := JoinResult.failed, forceJoin := JoinResult.failed,
      handshakeOk := true }
    { unpublishOk := fun _ => true, roomDisconnectOk := true }
    (by rfl) (by rfl)
  exact (h.1 (by decide)).1

/-! ## Finite-mode chunk transmission (publishPCMAudio loop) -/

/-- Value of `Math.floor((48000 * 100) / 1000) * 1`: samples per 100 ms mono chunk. -/
def samplesPerChunk : Nat := 48000 * 100 / 1000 * 1

/-- The `while (offset < volumeAdjustedPCM.length && !this.shouldStop)` loop
of `publishPCMAudio`, abstracted over when the cooperative stop flag is
observed: `stopBudget` counts the remaining condition checks at which
`shouldStop` still reads false (the flag, once set by `stop()`, stays set for
the rest of the playback).  Returns the `(iteration index, offset)` pair of
every chunk handed to `source.captureFrame`, in transmission order; the loop
checks the flag before each chunk and exits without sending once it reads
true, even if samples remain. -/
def transmitChunks (pcmLen : Nat) : Nat → Nat → Nat → List (Nat × Nat)
  | 0, _, _ => []
  | stopBudget + 1, k, offset =>
    if offset < pcmLen then
      (k, offset) ::
        transmitChunks pcmLen stopBudget (k + 1) (min (offset + samplesPerChunk) pcmLen)
    else []

theorem transmitChunks_mem (pcmLen : Nat) :
    ∀ (sb k offset : Nat), ∀ c ∈ transmitChunks pcmLen sb k offset,
      k ≤ c.1 ∧ c.1 < k + sb ∧ c.2 < pcmLen := by
  intro sb
  induction sb with
  | zero => intro k offset c hc; simp [transmitChunks] at hc
  | succ n ih =>
    intro k offset c hc
    rw [transmitChunks] at hc
    by_cases ho : offset < pcmLen
    · rw [if_pos ho] at hc
      rcases List.mem_cons.mp hc with h | h
      · subst h; omega
      · have := ih (k + 1) (min (offset + samplesPerChunk) pcmLen) c h
        omega
    · rw [if_neg ho] at hc
      simp at hc

theorem transmitChunks_length (pcmLen : Nat) :
    ∀ (sb k offset : Nat), (transmitChunks pcmLen sb k offset).length ≤ sb := by
  intro sb
  induction sb with
  | zero => intro k offset; simp [transmitChunks]
  | succ n ih =>
    intro k offset
    rw [transmitChunks]
    by_cases ho : offset < pcmLen
    · rw [if_pos ho]
      simpa using Nat.succ_le_succ (ih (k + 1) (min (offset + samplesPerChunk) pcmLen))
    · rw [if_neg ho]; simp

/-- C4: once `stop()` sets the cooperative flag, the finite-mode loop
observes it at the check before each chunk: with the flag observed true from
check number `stopAt` onward, every transmitted chunk has iteration index
strictly below `stopAt`, at most `stopAt` chunks are handed to the transport
in total, and at a check where the flag already reads true the loop exits
immediately with no further frame — remaining samples are not played out. -/
theorem transmit_stops_on_flag (pcmLen stopAt : Nat) :
    (∀ c ∈ transmitChunks pcmLen stopAt 0 0, c.1 < stopAt ∧ c.2 < pcmLen) ∧
    (transmitChunks pcmLen stopAt 0 0).length ≤ stopAt ∧
    (∀ k offset, transmitChunks pcmLen 0 k offset = []) := by
  refine ⟨?_, transmitChunks_length pcmLen stopAt 0 0, ?_⟩
  · intro c hc
    have := transmitChunks_mem pcmLen stopAt 0 0 c hc
    omega
  · intro k offset
    rfl

/-- Witness for C4: 20000 samples (5 chunks worth) with the stop flag
observed at check 2 — exactly the first two chunks go out, none after. -/
theorem transmit_stops_on_flag_witness :
    (transmitChunks 20000 2 0 0).length ≤ 2 ∧
    transmitChunks 20000 2 0 0 = [(0, 0), (1, 4800)] ∧
    transmitChunks 20000 0 0 9600 = [] :=
  ⟨(transmit_stops_on_flag 20000 2).2.1, by decide,
    (transmit_stops_on_flag 20000 2).2.2 0 9600⟩

/-! ## Input classification (play / isUrl / isFilePath) -/

/-- Scheme of a string that the WHATWG `URL` constructor accepts. -/
inductive UrlScheme where
  | http
  | https
  | other
deriving DecidableEq, Repr

/-- What the environment says about one candidate string input: the result of
`new URL(input)` (none when the constructor throws), and whether
`existsSync(input)` finds a filesystem entry. -/
structure StrInput where
  urlScheme : Option UrlScheme
  fsExists : Bool
deriving DecidableEq, Repr

/-- Predicate `isUrl`: the string parses as a URL and its protocol is `http:` or
`https:`. -/
def isUrl (d : StrInput) : Bool :=
  match d.urlScheme with
  | some UrlScheme.http => true
  | some UrlScheme.https => true
  | _ => false

/-- Predicate `isFilePath`: `existsSync` reports an existing entry. -/
def isFilePath (d : StrInput) : Bool :=
  d.fsExists

/-- The values `play(input)` accepts: a `Readable` stream or a string. -/
inductive PlayInput where
  | readable
  | strInput (d : StrInput)
deriving DecidableEq, Repr

/-- How one `play` call dispatches. -/
inductive PlayKind where
  | streamKind
  | urlKind
  | fileKind
  | invalidInput
deriving DecidableEq, Repr

/-- The dispatch chain of `play(input)`: a `Readable` goes to the streaming
path (emitting `audioStart`), a URL string to `playFromUrl`, an existing path
to `playFromFile`; any other string throws the invalid-input error before
any playback side effect, so no event is emitted on that path. -/
def playDispatch : PlayInput → PlayKind × List Event
  | PlayInput.readable =>
      (PlayKind.streamKind,
        [Event.debug "Auto-detected stream input", Event.audioStart "stream" "stream"])
  | PlayInput.strInput d =>
    if isUrl d then (PlayKind.urlKind, [Event.debug "Auto-detected URL input"])
    else if isFilePath d then
      (PlayKind.fileKind, [Event.debug "Auto-detected file path input"])
    else (PlayKind.invalidInput, [])

/-- C7: `play` classifies a `Readable` as stream; a string parsing as an
absolute URL with scheme http or https as url; otherwise a string naming an
existing filesystem entry as file; any other string rejects with the
invalid-input error, emitting nothing and starting no playback. -/
theorem play_classification (d : StrInput) :
    (playDispatch PlayInput.readable).1 = PlayKind.streamKind ∧
    (d.urlScheme = some UrlScheme.http ∨ d.urlScheme = some UrlScheme.https →
      (playDispatch (PlayInput.strInput d)).1 = PlayKind.urlKind) ∧
    (isUrl d = false → d.fsExists = true →
      (playDispatch (PlayInput.strInput d)).1 = PlayKind.fileKind) ∧
    (isUrl d = false → d.fsExists = false →
      playDispatch (PlayInput.strInput d) = (PlayKind.invalidInput, [])) := by
  refine ⟨rfl, ?_, ?_, ?_⟩
  · intro h
    rcases h with h | h <;> simp [playDispatch, isUrl, h]
  · intro hu hf
    simp [playDispatch, hu, isFilePath, hf]
  · intro hu hf
    simp [playDispatch, hu, isFilePath, hf]

/-- Witness for C7: an https URL string classifies as url, a non-URL existing
path as file, and a non-URL non-existing string as invalid input. -/
theorem play_classification_witness :
    (playDispatch (PlayInput.strInput ⟨some UrlScheme.https, false⟩)).1 = PlayKind.urlKind ∧
    (playDispatch (PlayInput.strInput ⟨none, true⟩)).1 = PlayKind.fileKind ∧
    playDispatch (PlayInput.strInput ⟨none, false⟩) = (PlayKind.invalidInput, []) :=
  ⟨(play_classification ⟨some UrlScheme.https, false⟩).2.1 (Or.inr rfl),
    (play_classification ⟨none, true⟩).2.2.1 (by decide) (by rfl),
    (play_classification ⟨none, false⟩).2.2.2 (by decide) (by rfl)⟩

/-! ## Playback-failure settlement (convertAudioToPCM / publishPCMAudio) -/

/-- What a promise executor does to its promise: resolve, reject, or neither
(the promise stays pending forever). -/
inductive PromiseAction where
  | resolveSamples (samples : Nat)
  | resolveUnit
  | rejected
  | noSettle
deriving DecidableEq, Repr

/-- The `ffmpeg.on("close", ...)` handler of the FFmpeg fallback inside
`convertAudioToPCM`, given the process exit code (null when killed by a
signal) and the decoded sample count: on exit code 0 it resolves the promise
with the PCM data and emits `conversionEnd`; on any other exit code it emits
`conversionError` and logs, but calls neither `resolve` nor `reject` (the
declared `reject` parameter is never used), leaving the promise pending. -/
def ffmpegCloseAction (code : Option Int) (samples : Nat) (src : String) :
    PromiseAction × List Event :=
  match code with
  | some 0 =>
      (PromiseAction.resolveSamples samples,
        [Event.conversionEnd src samples, Event.debug "FFmpeg conversion completed"])
  | _ => (PromiseAction.noSettle, [Event.conversionError src])

/-- The settlement skeleton of `publishPCMAudio`: it throws (rejecting the
caller) when no room is held; with a room, the inner `processAudio` resolves
the promise after the chunk loop when `publishTrack` returned a publication
handle; when `publishTrack` returns null it only logs — the promise is never
settled and no error event is emitted (the declared `reject` is unused). -/
def publishPCMAction (roomPresent publicationOk : Bool) (sid : String) :
    PromiseAction × List Event :=
  if roomPresent = false then (PromiseAction.rejected, [])
  else if publicationOk then
    (PromiseAction.resolveUnit, [Event.trackPublished sid])
  else (PromiseAction.noSettle, [])

/-- C1 evaluation: when the FFmpeg fallback decode exits with code 1 the
conversion promise is never settled — in particular it is not rejected — even
though `conversionError` is emitted; and when `publishTrack` returns no
handle, `publishPCMAudio` neither settles its promise nor emits any error
notification.  Both contradict the claim that the in-flight play call
settles with a rejection. -/
theorem playback_failure_never_rejects :
    (ffmpegCloseAction (some 1) 0 "song.mp3").1 = PromiseAction.noSettle ∧
    (ffmpegCloseAction (some 1) 0 "song.mp3").1 ≠ PromiseAction.rejected ∧
    (ffmpegCloseAction (some 1) 0 "song.mp3").2 = [Event.conversionError "song.mp3"] ∧
    publishPCMAction true false "sid" = (PromiseAction.noSettle, []) := by
  refine ⟨?_, ?_, ?_, ?_⟩ <;> decide

/-! ## Live-mode delivery setup (playStreamingAudio) -/

/-- Side effects of setting up one live playback, in program order. -/
inductive DeliveryEffect where
  | createAudioSource
  | publishTrackEffect
  | startDecodePipeline
  | spawnFfmpegPipeline
deriving DecidableEq, Repr

/-- The setup sequence of `playStreamingAudio` once a room is held: one
`AudioSource`/track pair is created and published; when the publication
handle is returned and node-av is available, the code then invokes
`nodeAVProcessor.createAudioStream` on the same input stream twice (the
whole block, chunk callback and all, appears duplicated back to back),
establishing two decode pipelines that both feed the same source; without
node-av a single FFmpeg pipeline is spawned. -/
def playStreamingSetup (nodeAVAvailable publicationOk : Bool) :
    List DeliveryEffect :=
  [DeliveryEffect.createAudioSource, DeliveryEffect.publishTrackEffect] ++
    (if publicationOk then
      (if nodeAVAvailable then
        [DeliveryEffect.startDecodePipeline, DeliveryEffect.startDecodePipeline]
      else [DeliveryEffect.spawnFfmpegPipeline])
    else [])

/-- C9 evaluation: in a live playback with node-av available and a
successful publish, exactly one audio source/track pair is created but the
decode pipeline is established twice, contradicting the claim that exactly
one decode pipeline is established and that no chunk can be delivered twice
or concurrently per playback. -/
theorem live_pipeline_established_twice :
    (playStreamingSetup true true).count DeliveryEffect.createAudioSource = 1 ∧
    (playStreamingSetup true true).count DeliveryEffect.startDecodePipeline = 2 ∧
    (playStreamingSetup true true).count DeliveryEffect.startDecodePipeline ≠ 1 := by
  refine ⟨?_, ?_, ?_⟩ <;> decide

end StoatVoice
